import Mathlib

/-!
Shallow embedding of the two LiveView handler components of the
django-liveview-example repository:

* `apps/core/liveview_components/chat.py` — `send_message`
* `apps/core/liveview_components/hello.py` — `say_hello`

Each handler is modelled as a pure function from an inbound message (and,
for the chat handler, the current wall-clock time) to the ordered list of
observable effects it performs: template-render calls and delivery calls.
The two external collaborators are modelled explicitly: template rendering
is an arbitrary function parameter `render`, and delivery is recorded as an
event carrying the outbound patch and the broadcast flag.
-/

namespace Liveview

/-- An inbound message (`content` in the Python handlers): a mapping that
may or may not carry a nested `form` mapping of string fields.  The `form`
mapping is an association list, mirroring a Python dict restricted to the
string keys the handlers read. -/
structure Content where
  form : Option (List (String × String))
deriving Repr, DecidableEq

/-- Embedding of Python `d.get(key, default)` on the `form` dict. -/
def dictGet (form : List (String × String)) (key dflt : String) : String :=
  match form.lookup key with
  | some v => v
  | none => dflt

/-- Embedding of `content.get("form", {}).get(key, default)`: when the
`form` key is missing, the lookup happens on the empty dict and yields the
default. -/
def contentFormGet (c : Content) (key dflt : String) : String :=
  match c.form with
  | some form => dictGet form key dflt
  | none => dflt

/-- Embedding of Python `str.strip()`: drop whitespace characters from both
ends of the string. -/
def pyStrip (s : String) : String :=
  ⟨((s.data.dropWhile Char.isWhitespace).reverse.dropWhile Char.isWhitespace).reverse⟩

/-- An outbound patch, the first argument of the delivery primitive `send`:
`target` selector, rendered `html`, and the optional `append` key (absent
in the greeting handler, `true` in the chat handler). -/
structure Patch where
  target : String
  html : String
  append : Option Bool
deriving Repr, DecidableEq

/-- An observable effect of a handler invocation: a template-render call
(`render_to_string`) or a delivery call (`send`, with its broadcast flag,
which defaults to `false` when the Python call omits it). -/
inductive Event where
  | render (template : String) (context : List (String × String)) : Event
  | deliver (patch : Patch) (broadcast : Bool) : Event
deriving Repr, DecidableEq

/-- Wall-clock time of day, the part of `datetime.now()` that
`strftime("%H:%M:%S")` reads. -/
structure Clock where
  hour : Nat
  minute : Nat
  second : Nat
deriving Repr, DecidableEq

/-- Zero-padded two-digit decimal rendering, as produced by the strftime
directives `%H`, `%M`, `%S` for in-range values. -/
def pad2 (n : Nat) : String :=
  if n < 10 then "0" ++ toString n else toString n

/-- Embedding of `datetime.now().strftime("%H:%M:%S")` applied to a clock
reading. -/
def strftimeHMS (c : Clock) : String :=
  pad2 c.hour ++ ":" ++ pad2 c.minute ++ ":" ++ pad2 c.second

/-- Embedding of `send_message` from `chat.py`.  `render` is the
`render_to_string` collaborator and `now` the wall-clock reading taken
during the invocation.  Returns the ordered list of effects performed. -/
def send_message (render : String → List (String × String) → String)
    (now : Clock) (content : Content) : List Event :=
  let message := pyStrip (contentFormGet content "message" "")
  let username := pyStrip (contentFormGet content "username" "Anônimo")
  if message = "" then
    []
  else
    let context := [("username", username), ("message", message),
      ("timestamp", strftimeHMS now)]
    let html := render "chat_message.html" context
    [Event.render "chat_message.html" context,
     Event.deliver (Patch.mk "#chat-messages" html (some true)) true]

/-- Embedding of `say_hello` from `hello.py`. -/
def say_hello (render : String → List (String × String) → String)
    (content : Content) : List Event :=
  let name := contentFormGet content "name" "World"
  let context := [("message", "Hello, " ++ name ++ "!")]
  let html := render "hello_message.html" context
  [Event.render "hello_message.html" context,
   Event.deliver (Patch.mk "#greeting" html none) false]

/-- The delivery calls of an effect trace, in order. -/
def deliveries (events : List Event) : List (Patch × Bool) :=
  events.filterMap fun e =>
    match e with
    | Event.deliver p b => some (p, b)
    | _ => none

/-- The template-render calls of an effect trace, in order. -/
def renders (events : List Event) : List (String × List (String × String)) :=
  events.filterMap fun e =>
    match e with
    | Event.render t ctx => some (t, ctx)
    | _ => none

/-- Whether the inbound message carries the given key inside a present
`form` mapping. -/
def hasFormKey (c : Content) (key : String) : Bool :=
  match c.form with
  | some form => (form.lookup key).isSome
  | none => false

/-- Whether a string consists of exactly two decimal digits. -/
def twoDigits (s : String) : Bool :=
  match s.data with
  | [a, b] => a.isDigit && b.isDigit
  | _ => false

/-- Whether a string matches the pattern HH:MM:SS — two digits, a colon,
two digits, a colon, two digits. -/
def matchesHMS (s : String) : Bool :=
  match s.data with
  | [h1, h2, c1, m1, m2, c2, s1, s2] =>
    h1.isDigit && h2.isDigit && c1 = ':' && m1.isDigit && m2.isDigit &&
      c2 = ':' && s1.isDigit && s2.isDigit
  | _ => false

/-- A sequence of chat-handler invocations at a fixed clock reading:
each inbound message is handled in turn, yielding its own effect trace. -/
def runChatMany (render : String → List (String × String) → String)
    (now : Clock) (cs : List Content) : List (List Event) :=
  cs.map (send_message render now)

/-- A sequence of greeting-handler invocations. -/
def runHelloMany (render : String → List (String × String) → String)
    (cs : List Content) : List (List Event) :=
  cs.map (say_hello render)

/-- C1: for every inbound message whose `form.message`, after trimming, is
empty (absent, empty, or whitespace-only), `send_message` performs no
delivery call and no template rendering: its effect trace is empty. -/
theorem send_message_empty_noop
    (render : String → List (String × String) → String) (now : Clock)
    (content : Content)
    (h : pyStrip (contentFormGet content "message" "") = "") :
    send_message render now content = [] := by
  simp [send_message, h]

/-- Witness for C1 at a whitespace-only message. -/
theorem send_message_empty_noop_witness :
    pyStrip (contentFormGet (Content.mk (some [("message", " \t ")]))
        "message" "") = "" ∧
      send_message (fun _ _ => "html") (Clock.mk 12 34 56)
        (Content.mk (some [("message", " \t ")])) = [] :=
  ⟨by decide, send_message_empty_noop _ _ _ (by decide)⟩

/-- C2: for every inbound message, `say_hello` renders exactly one template
call whose context message is "Hello, " ++ name ++ "!", where name is the
value of `form.name` when that key is present and "World" when the key is
absent or the `form` mapping itself is missing. -/
theorem say_hello_greeting_message
    (render : String → List (String × String) → String) (content : Content) :
    ∃ name : String,
      renders (say_hello render content) =
        [("hello_message.html", [("message", "Hello, " ++ name ++ "!")])] ∧
      ((∃ form, content.form = some form ∧ form.lookup "name" = some name) ∨
        (name = "World" ∧
          (content.form = none ∨
            ∃ form, content.form = some form ∧ form.lookup "name" = none))) := by
  cases hf : content.form with
  | none =>
      refine ⟨"World", ?_, Or.inr ⟨rfl, Or.inl rfl⟩⟩
      simp [say_hello, renders, contentFormGet, hf]
  | some form =>
      cases hl : form.lookup "name" with
      | none =>
          refine ⟨"World", ?_, Or.inr ⟨rfl, Or.inr ⟨form, rfl, hl⟩⟩⟩
          simp [say_hello, renders, contentFormGet, dictGet, hf, hl]
      | some v =>
          refine ⟨v, ?_, Or.inl ⟨form, rfl, hl⟩⟩
          simp [say_hello, renders, contentFormGet, dictGet, hf, hl]

/-- C3: for every inbound message whose trimmed `form.message` is
non-empty, `send_message` performs exactly one delivery call, whose patch
targets "#chat-messages" with `append` set to `true`, delivered with the
broadcast flag set. -/
theorem send_message_broadcast_delivery
    (render : String → List (String × String) → String) (now : Clock)
    (content : Content)
    (h : pyStrip (contentFormGet content "message" "") ≠ "") :
    ∃ html, deliveries (send_message render now content) =
      [(Patch.mk "#chat-messages" html (some true), true)] := by
  refine ⟨render "chat_message.html"
      [("username", pyStrip (contentFormGet content "username" "Anônimo")),
       ("message", pyStrip (contentFormGet content "message" "")),
       ("timestamp", strftimeHMS now)], ?_⟩
  simp [send_message, deliveries, h]

/-- Witness for C3 at the spec's end-to-end chat input. -/
theorem send_message_broadcast_delivery_witness :
    pyStrip (contentFormGet
        (Content.mk (some [("message", "  oi  "), ("username", "Bia")]))
        "message" "") ≠ "" ∧
      ∃ html, deliveries (send_message (fun _ _ => "html") (Clock.mk 9 5 0)
          (Content.mk (some [("message", "  oi  "), ("username", "Bia")]))) =
        [(Patch.mk "#chat-messages" html (some true), true)] :=
  ⟨by decide, send_message_broadcast_delivery _ _ _ (by decide)⟩

/-- C4: for every inbound message, `say_hello` performs exactly one
delivery call, whose patch targets "#greeting" with no `append` key, and
the delivery is made without the broadcast flag. -/
theorem say_hello_unicast_delivery
    (render : String → List (String × String) → String) (content : Content) :
    ∃ html, deliveries (say_hello render content) =
      [(Patch.mk "#greeting" html none, false)] :=
  ⟨render "hello_message.html"
      [("message", "Hello, " ++ contentFormGet content "name" "World" ++ "!")],
    by simp [say_hello, deliveries]⟩

/-- C5: for every inbound message with a non-empty trimmed `form.message`
and no `form.username` key, `send_message` renders the chat-line template
with display name "Anônimo". -/
theorem send_message_default_username
    (render : String → List (String × String) → String) (now : Clock)
    (content : Content)
    (hmsg : pyStrip (contentFormGet content "message" "") ≠ "")
    (huser : hasFormKey content "username" = false) :
    ∃ ctx, renders (send_message render now content) =
        [("chat_message.html", ctx)] ∧
      ctx.lookup "username" = some "Anônimo" := by
  have hu : contentFormGet content "username" "Anônimo" = "Anônimo" := by
    cases hf : content.form with
    | none => simp [contentFormGet, hf]
    | some form =>
        cases hl : form.lookup "username" with
        | none => simp [contentFormGet, dictGet, hf, hl]
        | some v => simp [hasFormKey, hf, hl] at huser
  have hA : pyStrip "Anônimo" = "Anônimo" := by decide
  refine ⟨[("username", pyStrip (contentFormGet content "username" "Anônimo")),
      ("message", pyStrip (contentFormGet content "message" "")),
      ("timestamp", strftimeHMS now)], ?_, ?_⟩
  · simp [send_message, renders, hmsg]
  · rw [hu, hA]
    simp [List.lookup]

/-- Witness for C5: a message with text but no username field. -/
theorem send_message_default_username_witness :
    pyStrip (contentFormGet (Content.mk (some [("message", "hi")]))
        "message" "") ≠ "" ∧
      hasFormKey (Content.mk (some [("message", "hi")])) "username" = false ∧
      ∃ ctx, renders (send_message (fun _ _ => "html") (Clock.mk 8 30 0)
          (Content.mk (some [("message", "hi")]))) =
          [("chat_message.html", ctx)] ∧
        ctx.lookup "username" = some "Anônimo" :=
  ⟨by decide, by decide,
    send_message_default_username _ _ _ (by decide) (by decide)⟩

theorem twoDigits_pad2 : ∀ n : Nat, n < 60 → twoDigits (pad2 n) = true := by
  decide

theorem matchesHMS_of_twoDigits (x y z : String)
    (hx : twoDigits x = true) (hy : twoDigits y = true)
    (hz : twoDigits z = true) :
    matchesHMS (x ++ ":" ++ y ++ ":" ++ z) = true := by
  have hdata : (x ++ ":" ++ y ++ ":" ++ z).data =
      x.data ++ [':'] ++ y.data ++ [':'] ++ z.data := by
    simp [String.data_append]
  rw [twoDigits] at hx hy hz
  rcases hxd : x.data with _ | ⟨a, _ | ⟨b, _ | _⟩⟩ <;> rw [hxd] at hx <;>
    simp at hx
  rcases hyd : y.data with _ | ⟨c, _ | ⟨d, _ | _⟩⟩ <;> rw [hyd] at hy <;>
    simp at hy
  rcases hzd : z.data with _ | ⟨e, _ | ⟨f, _ | _⟩⟩ <;> rw [hzd] at hz <;>
    simp at hz
  rw [matchesHMS, hdata, hxd, hyd, hzd]
  simp [hx.1, hx.2, hy.1, hy.2, hz.1, hz.2]

/-- For a valid clock reading, the formatted timestamp matches HH:MM:SS. -/
theorem matchesHMS_strftimeHMS (now : Clock) (hh : now.hour < 24)
    (hm : now.minute < 60) (hs : now.second < 60) :
    matchesHMS (strftimeHMS now) = true :=
  matchesHMS_of_twoDigits _ _ _
    (twoDigits_pad2 now.hour (Nat.lt_of_lt_of_le hh (by omega)))
    (twoDigits_pad2 now.minute hm) (twoDigits_pad2 now.second hs)

/-- C6: for every inbound message with non-empty trimmed `form.message`,
the chat-line template context carries the trimmed message, the trimmed
username, and a timestamp for the current clock reading that matches the
zero-padded 24-hour pattern HH:MM:SS. -/
theorem send_message_context_fields
    (render : String → List (String × String) → String) (now : Clock)
    (content : Content)
    (hmsg : pyStrip (contentFormGet content "message" "") ≠ "")
    (hh : now.hour < 24) (hm : now.minute < 60) (hs : now.second < 60) :
    ∃ ctx, renders (send_message render now content) =
        [("chat_message.html", ctx)] ∧
      ctx.lookup "message" =
        some (pyStrip (contentFormGet content "message" "")) ∧
      ctx.lookup "username" =
        some (pyStrip (contentFormGet content "username" "Anônimo")) ∧
      ∃ t, ctx.lookup "timestamp" = some t ∧ matchesHMS t = true := by
  refine ⟨[("username", pyStrip (contentFormGet content "username" "Anônimo")),
      ("message", pyStrip (contentFormGet content "message" "")),
      ("timestamp", strftimeHMS now)], ?_, ?_, ?_,
      strftimeHMS now, ?_, matchesHMS_strftimeHMS now hh hm hs⟩
  · simp [send_message, renders, hmsg]
  · simp [List.lookup]
  · simp [List.lookup]
  · simp [List.lookup]

/-- Witness for C6 at the spec's end-to-end chat input. -/
theorem send_message_context_fields_witness :
    pyStrip (contentFormGet
        (Content.mk (some [("message", "  oi  "), ("username", "Bia")]))
        "message" "") ≠ "" ∧
      ∃ ctx, renders (send_message (fun _ _ => "html") (Clock.mk 23 59 7)
          (Content.mk (some [("message", "  oi  "), ("username", "Bia")]))) =
          [("chat_message.html", ctx)] ∧
        ctx.lookup "message" = some (pyStrip (contentFormGet
          (Content.mk (some [("message", "  oi  "), ("username", "Bia")]))
          "message" "")) ∧
        ctx.lookup "username" = some (pyStrip (contentFormGet
          (Content.mk (some [("message", "  oi  "), ("username", "Bia")]))
          "username" "Anônimo")) ∧
        ∃ t, ctx.lookup "timestamp" = some t ∧ matchesHMS t = true :=
  ⟨by decide, send_message_context_fields _ _ _ (by decide) (by decide)
    (by decide) (by decide)⟩

/-- C7: both handlers are deterministic functions of their input and
retain no state across invocations: within any sequence of invocations,
the effect trace of the last one is a function of its own inbound message
(and, for chat, the clock reading) only, independent of the history. -/
theorem handlers_history_independent
    (render : String → List (String × String) → String) (now : Clock)
    (history : List Content) (c : Content) :
    (runChatMany render now (history ++ [c])).getLast? =
        some (send_message render now c) ∧
      (runHelloMany render (history ++ [c])).getLast? =
        some (say_hello render c) := by
  constructor <;>
    simp [runChatMany, runHelloMany, List.map_append, List.getLast?_concat]

/-- C8: if `form.username` is present but empty or whitespace-only while
the trimmed `form.message` is non-empty, `send_message` renders the empty
string as the display name rather than "Anônimo": the default applies only
when the key is absent, and trimming applies to the extracted value. -/
theorem send_message_blank_username
    (render : String → List (String × String) → String) (now : Clock)
    (content : Content) (form : List (String × String)) (u : String)
    (hf : content.form = some form)
    (hu : form.lookup "username" = some u)
    (hblank : pyStrip u = "")
    (hmsg : pyStrip (contentFormGet content "message" "") ≠ "") :
    ∃ ctx, renders (send_message render now content) =
        [("chat_message.html", ctx)] ∧
      ctx.lookup "username" = some "" := by
  have husr : pyStrip (contentFormGet content "username" "Anônimo") = "" := by
    simp [contentFormGet, dictGet, hf, hu, hblank]
  refine ⟨[("username", pyStrip (contentFormGet content "username" "Anônimo")),
      ("message", pyStrip (contentFormGet content "message" "")),
      ("timestamp", strftimeHMS now)], ?_, ?_⟩
  · simp [send_message, renders, hmsg]
  · rw [husr]
    simp [List.lookup]

/-- Witness for C8: a whitespace-only username next to a real message. -/
theorem send_message_blank_username_witness :
    (Content.mk (some [("message", "hi"), ("username", "  ")])).form =
        some [("message", "hi"), ("username", "  ")] ∧
      List.lookup "username" [("message", "hi"), ("username", "  ")] =
        some "  " ∧
      pyStrip "  " = "" ∧
      pyStrip (contentFormGet
        (Content.mk (some [("message", "hi"), ("username", "  ")]))
        "message" "") ≠ "" ∧
      ∃ ctx, renders (send_message (fun _ _ => "html") (Clock.mk 10 0 0)
          (Content.mk (some [("message", "hi"), ("username", "  ")]))) =
          [("chat_message.html", ctx)] ∧
        ctx.lookup "username" = some "" :=
  ⟨rfl, by decide, by decide, by decide,
    send_message_blank_username (fun _ _ => "html") (Clock.mk 10 0 0)
      (Content.mk (some [("message", "hi"), ("username", "  ")]))
      [("message", "hi"), ("username", "  ")] "  " rfl (by decide)
      (by decide) (by decide)⟩

/-- C9: if `form.name` is present but equal to the empty string,
`say_hello` renders "Hello, !" rather than "Hello, World!": the default
applies only when the key is absent. -/
theorem say_hello_empty_name
    (render : String → List (String × String) → String) (content : Content)
    (form : List (String × String))
    (hf : content.form = some form)
    (hn : form.lookup "name" = some "") :
    renders (say_hello render content) =
      [("hello_message.html", [("message", "Hello, !")])] := by
  simp [say_hello, renders, contentFormGet, dictGet, hf, hn]

/-- Witness for C9: a form whose name field holds the empty string. -/
theorem say_hello_empty_name_witness :
    (Content.mk (some [("name", "")])).form = some [("name", "")] ∧
      List.lookup "name" [("name", "")] = some "" ∧
      renders (say_hello (fun _ _ => "html")
          (Content.mk (some [("name", "")]))) =
        [("hello_message.html", [("message", "Hello, !")])] :=
  ⟨rfl, by decide, say_hello_empty_name _ _ _ rfl (by decide)⟩

/-- C10: `say_hello` does not trim `form.name`: whatever value the key
holds, surrounding whitespace included, appears verbatim inside the
rendered "Hello, ..." message. -/
theorem say_hello_name_verbatim
    (render : String → List (String × String) → String) (content : Content)
    (form : List (String × String)) (n : String)
    (hf : content.form = some form)
    (hn : form.lookup "name" = some n) :
    renders (say_hello render content) =
      [("hello_message.html", [("message", "Hello, " ++ n ++ "!")])] := by
  simp [say_hello, renders, contentFormGet, dictGet, hf, hn]

/-- Witness for C10: a name carrying surrounding whitespace is kept
verbatim, untrimmed. -/
theorem say_hello_name_verbatim_witness :
    (Content.mk (some [("name", " Ana ")])).form = some [("name", " Ana ")] ∧
      List.lookup "name" [("name", " Ana ")] = some " Ana " ∧
      renders (say_hello (fun _ _ => "html")
          (Content.mk (some [("name", " Ana ")]))) =
        [("hello_message.html", [("message", "Hello, " ++ " Ana " ++ "!")])] :=
  ⟨rfl, by decide, say_hello_name_verbatim (fun _ _ => "html")
    (Content.mk (some [("name", " Ana ")])) [("name", " Ana ")] " Ana " rfl
    (by decide)⟩

end Liveview
